import Mathlib

/-!
Verification of the weather-agent service.

The Python sources are shallowly embedded: JSON documents become an
inductive `Json` tree whose objects are ordered association lists
(Python dicts preserve insertion order); `dict` assignment is `setKey`
(replace the first occurrence in place, append when absent); floats that
the code only ever copies are modeled as rationals; fallible code
returns `Except`/`Option` and the external LLM/HTTP effects are passed
in as explicit outcome values.
-/

/-- JSON values. Objects are ordered association lists, mirroring the
insertion-ordered Python dicts produced by `json.loads` and
`model_json_schema`. -/
inductive Json where
  | null : Json
  | bool (b : Bool) : Json
  | num (x : Rat) : Json
  | str (s : String) : Json
  | arr (elems : List Json) : Json
  | obj (fields : List (String × Json)) : Json
deriving Repr

/-- `lookupKey k fields` is Python's `fields[k]` / `fields.get(k)`:
the value at the first occurrence of key `k`. -/
def lookupKey (k : String) : List (String × Json) → Option Json
  | [] => none
  | f :: fs => if f.1 = k then some f.2 else lookupKey k fs

/-- `setKey k v fields` is Python's `fields[k] = v`: replace the value at
the first occurrence of `k` keeping its position, or append `(k, v)`. -/
def setKey (k : String) (v : Json) : List (String × Json) → List (String × Json)
  | [] => [(k, v)]
  | f :: fs => if f.1 = k then (k, v) :: fs else f :: setKey k v fs

/-- Python's `schema.get('type') == t` for a string literal `t`. -/
def typeIs (t : String) (fields : List (String × Json)) : Bool :=
  match lookupKey "type" fields with
  | some (.str s) => s = t
  | _ => false

/-- Shape test: the value is a JSON array (Python iterates it as a list). -/
def asArr : Option Json → Option (List Json)
  | some (.arr xs) => some xs
  | _ => none

/-- Shape test: the value is a JSON object (Python calls `.items()`/`.keys()`). -/
def asObjFields : Option Json → Option (List (String × Json))
  | some (.obj fs) => some fs
  | _ => none

theorem sizeOf_lookupKey {k : String} {fs : List (String × Json)} {v : Json}
    (h : lookupKey k fs = some v) : sizeOf v < sizeOf fs := by
  induction fs with
  | nil => simp [lookupKey] at h
  | cons f fs ih =>
    simp only [lookupKey] at h
    split at h
    · cases h
      simp only [List.cons.sizeOf_spec, Prod.mk.sizeOf_spec]
      cases f
      simp
      omega
    · have := ih h
      simp only [List.cons.sizeOf_spec]
      omega

theorem sizeOf_mem_pair {p : String × Json} {fs : List (String × Json)}
    (h : p ∈ fs) : sizeOf p.2 < sizeOf fs := by
  have h1 := List.sizeOf_lt_of_mem h
  cases p
  simp only [Prod.mk.sizeOf_spec] at h1
  simp at h1 ⊢
  omega

theorem sizeOf_mem_json {x : Json} {xs : List Json} (h : x ∈ xs) :
    sizeOf x < sizeOf xs :=
  List.sizeOf_lt_of_mem h

/--
Embedding of `ensure_strict_schema` (src/utils/json_utils.py).

The Python function mutates one dict in several sequential phases
(object/array handling, then `anyOf`/`oneOf`/`allOf`, then `$defs`).
Each phase reads and writes a set of keys disjoint from what every other
phase writes, so reading from the original `fields` while threading the
updates through `setKey` reproduces the in-place mutation exactly,
including the final key order (fresh keys are appended in the order
`additionalProperties`, `required`).
-/
def ensureStrictSchema : Json → Json
  | .obj fields =>
      -- phase 1: `type == 'object'` / elif `type == 'array' and 'items' in schema`
      let f1 :=
        if typeIs "object" fields then
          let fa := setKey "additionalProperties" (.bool false) fields
          match hp : lookupKey "properties" fields with
          | some (.obj props) =>
              setKey "properties"
                (.obj (props.attach.map (fun p => (p.1.1, ensureStrictSchema p.1.2))))
                (setKey "required" (.arr (props.map (fun p => Json.str p.1))) fa)
          | _ => fa
        else if typeIs "array" fields then
          match hi : lookupKey "items" fields with
          | some it => setKey "items" (ensureStrictSchema it) fields
          | none => fields
        else fields
      -- phase 2: `for key in ['anyOf', 'oneOf', 'allOf']`
      let f2 :=
        match ha : lookupKey "anyOf" fields with
        | some (.arr xs) =>
            setKey "anyOf" (.arr (xs.attach.map (fun x => ensureStrictSchema x.1))) f1
        | _ => f1
      let f3 :=
        match ho : lookupKey "oneOf" fields with
        | some (.arr xs) =>
            setKey "oneOf" (.arr (xs.attach.map (fun x => ensureStrictSchema x.1))) f2
        | _ => f2
      let f4 :=
        match hl : lookupKey "allOf" fields with
        | some (.arr xs) =>
            setKey "allOf" (.arr (xs.attach.map (fun x => ensureStrictSchema x.1))) f3
        | _ => f3
      -- phase 3: `'$defs' in schema`
      let f5 :=
        match hd : lookupKey "$defs" fields with
        | some (.obj defs) =>
            setKey "$defs"
              (.obj (defs.attach.map (fun d => (d.1.1, ensureStrictSchema d.1.2)))) f4
        | _ => f4
      .obj f5
  | j => j
termination_by j => sizeOf j
decreasing_by
  all_goals simp_wf
  · have h1 := sizeOf_lookupKey hp
    have h2 := sizeOf_mem_pair p.2
    simp at h1
    omega
  · have h1 := sizeOf_lookupKey hi
    omega
  · have h1 := sizeOf_lookupKey ha
    have h2 := sizeOf_mem_json x.2
    simp at h1
    omega
  · have h1 := sizeOf_lookupKey ho
    have h2 := sizeOf_mem_json x.2
    simp at h1
    omega
  · have h1 := sizeOf_lookupKey hl
    have h2 := sizeOf_mem_json x.2
    simp at h1
    omega
  · have h1 := sizeOf_lookupKey hd
    have h2 := sizeOf_mem_pair d.2
    simp at h1
    omega

/-! Phase-by-phase decomposition of `ensureStrictSchema` on an object node.
The phase functions below are verbatim copies of the pieces of the body of
`ensureStrictSchema`, so that the unfolding lemma holds definitionally;
they are then rewritten into the `List.map`-based `…Step` forms that the
rest of the development uses. -/

def strictObjPhase (fields : List (String × Json)) : List (String × Json) :=
  if typeIs "object" fields then
    let fa := setKey "additionalProperties" (.bool false) fields
    match _hp : lookupKey "properties" fields with
    | some (.obj props) =>
        setKey "properties"
          (.obj (props.attach.map (fun p => (p.1.1, ensureStrictSchema p.1.2))))
          (setKey "required" (.arr (props.map (fun p => Json.str p.1))) fa)
    | _ => fa
  else if typeIs "array" fields then
    match _hi : lookupKey "items" fields with
    | some it => setKey "items" (ensureStrictSchema it) fields
    | none => fields
  else fields

def strictUnionPhase (k : String) (fields f : List (String × Json)) :
    List (String × Json) :=
  match _h : lookupKey k fields with
  | some (.arr xs) =>
      setKey k (.arr (xs.attach.map (fun x => ensureStrictSchema x.1))) f
  | _ => f

def strictDefsPhase (fields f : List (String × Json)) : List (String × Json) :=
  match _h : lookupKey "$defs" fields with
  | some (.obj defs) =>
      setKey "$defs"
        (.obj (defs.attach.map (fun d => (d.1.1, ensureStrictSchema d.1.2)))) f
  | _ => f

/-- `ensureStrictSchema` on an object node is the sequential composition of
its phases, exactly as the Python function mutates the dict in order. -/
theorem ensureStrictSchema_obj (fields : List (String × Json)) :
    ensureStrictSchema (.obj fields) =
      .obj (strictDefsPhase fields
        (strictUnionPhase "allOf" fields
          (strictUnionPhase "oneOf" fields
            (strictUnionPhase "anyOf" fields (strictObjPhase fields))))) := by
  rw [ensureStrictSchema]
  rfl

theorem attach_map_pair (l : List (String × Json)) (f : Json → Json) :
    l.attach.map (fun p => (p.1.1, f p.1.2)) = l.map (fun p => (p.1, f p.2)) :=
  List.attach_map_val l (fun p => (p.1, f p.2))

theorem attach_map_json (l : List Json) (f : Json → Json) :
    l.attach.map (fun x => f x.1) = l.map f :=
  List.attach_map_val l f

/-- `List.map`-based form of the object/array phase. -/
def objStep (fields : List (String × Json)) : List (String × Json) :=
  if typeIs "object" fields then
    match asObjFields (lookupKey "properties" fields) with
    | some props =>
        setKey "properties" (.obj (props.map (fun p => (p.1, ensureStrictSchema p.2))))
          (setKey "required" (.arr (props.map (fun p => Json.str p.1)))
            (setKey "additionalProperties" (.bool false) fields))
    | none => setKey "additionalProperties" (.bool false) fields
  else if typeIs "array" fields then
    match lookupKey "items" fields with
    | some it => setKey "items" (ensureStrictSchema it) fields
    | none => fields
  else fields

/-- `List.map`-based form of one `anyOf`/`oneOf`/`allOf` phase. -/
def unionStep (k : String) (fields f : List (String × Json)) :
    List (String × Json) :=
  match asArr (lookupKey k fields) with
  | some xs => setKey k (.arr (xs.map ensureStrictSchema)) f
  | none => f

/-- `List.map`-based form of the `$defs` phase. -/
def defsStep (fields f : List (String × Json)) : List (String × Json) :=
  match asObjFields (lookupKey "$defs" fields) with
  | some ds => setKey "$defs" (.obj (ds.map (fun d => (d.1, ensureStrictSchema d.2)))) f
  | none => f

/-- The full effect of `ensureStrictSchema` on the field list of an object node. -/
def strictStep (fields : List (String × Json)) : List (String × Json) :=
  defsStep fields
    (unionStep "allOf" fields
      (unionStep "oneOf" fields
        (unionStep "anyOf" fields (objStep fields))))

theorem strictObjPhase_eq (fields : List (String × Json)) :
    strictObjPhase fields = objStep fields := by
  unfold strictObjPhase objStep
  cases h1 : typeIs "object" fields
  · cases h2 : typeIs "array" fields
    · simp
    · simp only [Bool.false_eq_true, if_false, if_true]
      cases hi : lookupKey "items" fields <;> rfl
  · simp only [if_true]
    cases hp : lookupKey "properties" fields with
    | none => simp [asObjFields]
    | some v => cases v <;> simp [asObjFields, attach_map_pair]

theorem strictUnionPhase_eq (k : String) (fields f : List (String × Json)) :
    strictUnionPhase k fields f = unionStep k fields f := by
  unfold strictUnionPhase unionStep
  split <;> simp_all [asArr, attach_map_json]

theorem strictDefsPhase_eq (fields f : List (String × Json)) :
    strictDefsPhase fields f = defsStep fields f := by
  unfold strictDefsPhase defsStep
  split <;> simp_all [asObjFields, attach_map_pair]

/-- Master unfolding: `ensureStrictSchema` on an object node, in clean form. -/
theorem strict_obj (fields : List (String × Json)) :
    ensureStrictSchema (.obj fields) = .obj (strictStep fields) := by
  rw [ensureStrictSchema_obj, strictDefsPhase_eq]
  simp only [strictUnionPhase_eq, strictObjPhase_eq]
  rfl

theorem strict_not_obj (j : Json) (h : ∀ fields, j ≠ .obj fields) :
    ensureStrictSchema j = j := by
  cases j <;> first | rfl | (exact absurd rfl (h _)) | simp [ensureStrictSchema]

theorem lookupKey_setKey_self (k : String) (v : Json) (l : List (String × Json)) :
    lookupKey k (setKey k v l) = some v := by
  induction l with
  | nil => simp [setKey, lookupKey]
  | cons f fs ih =>
    simp only [setKey]
    split
    · simp [lookupKey]
    · simp [lookupKey, *]

theorem lookupKey_setKey_ne {k k2 : String} (h : k ≠ k2) (v : Json)
    (l : List (String × Json)) : lookupKey k (setKey k2 v l) = lookupKey k l := by
  induction l with
  | nil => simp [setKey, lookupKey, Ne.symm h]
  | cons f fs ih =>
    simp only [setKey]
    split
    · simp_all [lookupKey, Ne.symm h]
    · simp [lookupKey, ih]

theorem setKey_lookup_eq {k : String} {v : Json} {l : List (String × Json)}
    (h : lookupKey k l = some v) : setKey k v l = l := by
  induction l with
  | nil => simp [lookupKey] at h
  | cons f fs ih =>
    obtain ⟨fk, fv⟩ := f
    by_cases hf : fk = k
    · subst hf
      simp [lookupKey] at h
      simp [setKey, h]
    · simp [lookupKey, hf] at h
      simp [setKey, hf, ih h]

theorem asArr_eq_some {o : Option Json} {xs : List Json} (h : asArr o = some xs) :
    o = some (.arr xs) := by
  match o with
  | none => simp [asArr] at h
  | some v => cases v <;> simp_all [asArr]

theorem asObjFields_eq_some {o : Option Json} {fs : List (String × Json)}
    (h : asObjFields o = some fs) : o = some (.obj fs) := by
  match o with
  | none => simp [asObjFields] at h
  | some v => cases v <;> simp_all [asObjFields]

theorem lookupKey_unionStep_ne {k k2 : String} (h : k2 ≠ k)
    (fields f : List (String × Json)) :
    lookupKey k2 (unionStep k fields f) = lookupKey k2 f := by
  unfold unionStep
  cases asArr (lookupKey k fields) with
  | none => rfl
  | some xs => simp [lookupKey_setKey_ne h]

theorem lookupKey_unionStep_self (k : String) (fields f : List (String × Json)) :
    lookupKey k (unionStep k fields f) =
      match asArr (lookupKey k fields) with
      | some xs => some (.arr (xs.map ensureStrictSchema))
      | none => lookupKey k f := by
  unfold unionStep
  cases asArr (lookupKey k fields) with
  | none => rfl
  | some xs => simp [lookupKey_setKey_self]

theorem lookupKey_defsStep_ne {k2 : String} (h : k2 ≠ "$defs")
    (fields f : List (String × Json)) :
    lookupKey k2 (defsStep fields f) = lookupKey k2 f := by
  unfold defsStep
  cases asObjFields (lookupKey "$defs" fields) with
  | none => rfl
  | some ds => simp [lookupKey_setKey_ne h]

theorem lookupKey_defsStep_self (fields f : List (String × Json)) :
    lookupKey "$defs" (defsStep fields f) =
      match asObjFields (lookupKey "$defs" fields) with
      | some ds => some (.obj (ds.map (fun d => (d.1, ensureStrictSchema d.2))))
      | none => lookupKey "$defs" f := by
  unfold defsStep
  cases asObjFields (lookupKey "$defs" fields) with
  | none => rfl
  | some ds => simp [lookupKey_setKey_self]

theorem objStep_props_eq {fields props} (h : typeIs "object" fields = true)
    (hp : asObjFields (lookupKey "properties" fields) = some props) :
    objStep fields =
      setKey "properties" (.obj (props.map (fun p => (p.1, ensureStrictSchema p.2))))
        (setKey "required" (.arr (props.map (fun p => Json.str p.1)))
          (setKey "additionalProperties" (.bool false) fields)) := by
  unfold objStep
  rw [h, hp]
  simp

theorem objStep_noprops_eq {fields} (h : typeIs "object" fields = true)
    (hp : asObjFields (lookupKey "properties" fields) = none) :
    objStep fields = setKey "additionalProperties" (.bool false) fields := by
  unfold objStep
  rw [h, hp]
  simp

theorem objStep_items_eq {fields it} (h : typeIs "object" fields = false)
    (h2 : typeIs "array" fields = true) (hi : lookupKey "items" fields = some it) :
    objStep fields = setKey "items" (ensureStrictSchema it) fields := by
  unfold objStep
  rw [h, h2, hi]
  simp

theorem objStep_id_eq {fields} (h : typeIs "object" fields = false)
    (h2 : typeIs "array" fields = false ∨ lookupKey "items" fields = none) :
    objStep fields = fields := by
  unfold objStep
  rw [h]
  rcases h2 with h2 | h2
  · rw [h2]
    simp
  · rw [h2]
    cases h3 : typeIs "array" fields <;> simp

theorem lookupKey_objStep_ne {k2 : String} (h1 : k2 ≠ "additionalProperties")
    (h2 : k2 ≠ "required") (h3 : k2 ≠ "properties") (h4 : k2 ≠ "items")
    (fields : List (String × Json)) :
    lookupKey k2 (objStep fields) = lookupKey k2 fields := by
  cases ho : typeIs "object" fields
  · cases ha : typeIs "array" fields
    · rw [objStep_id_eq ho (Or.inl ha)]
    · cases hi : lookupKey "items" fields with
      | none => rw [objStep_id_eq ho (Or.inr hi)]
      | some it => rw [objStep_items_eq ho ha hi, lookupKey_setKey_ne h4]
  · cases hp : asObjFields (lookupKey "properties" fields) with
    | none => rw [objStep_noprops_eq ho hp, lookupKey_setKey_ne h1]
    | some props =>
        rw [objStep_props_eq ho hp, lookupKey_setKey_ne h3, lookupKey_setKey_ne h2,
          lookupKey_setKey_ne h1]

theorem lookupKey_strictStep_objpart {k2 : String} (h5 : k2 ≠ "anyOf")
    (h6 : k2 ≠ "oneOf") (h7 : k2 ≠ "allOf") (h8 : k2 ≠ "$defs")
    (fields : List (String × Json)) :
    lookupKey k2 (strictStep fields) = lookupKey k2 (objStep fields) := by
  unfold strictStep
  rw [lookupKey_defsStep_ne h8, lookupKey_unionStep_ne h7, lookupKey_unionStep_ne h6,
    lookupKey_unionStep_ne h5]

theorem lookupKey_strictStep_ne {k2 : String} (h1 : k2 ≠ "additionalProperties")
    (h2 : k2 ≠ "required") (h3 : k2 ≠ "properties") (h4 : k2 ≠ "items")
    (h5 : k2 ≠ "anyOf") (h6 : k2 ≠ "oneOf") (h7 : k2 ≠ "allOf") (h8 : k2 ≠ "$defs")
    (fields : List (String × Json)) :
    lookupKey k2 (strictStep fields) = lookupKey k2 fields := by
  rw [lookupKey_strictStep_objpart h5 h6 h7 h8, lookupKey_objStep_ne h1 h2 h3 h4]

theorem typeIs_strictStep (t : String) (fields : List (String × Json)) :
    typeIs t (strictStep fields) = typeIs t fields := by
  unfold typeIs
  rw [lookupKey_strictStep_ne (by decide) (by decide) (by decide) (by decide)
    (by decide) (by decide) (by decide) (by decide)]

theorem lookupKey_strictStep_anyOf (fields : List (String × Json)) :
    lookupKey "anyOf" (strictStep fields) =
      match asArr (lookupKey "anyOf" fields) with
      | some xs => some (.arr (xs.map ensureStrictSchema))
      | none => lookupKey "anyOf" fields := by
  unfold strictStep
  rw [lookupKey_defsStep_ne (by decide), lookupKey_unionStep_ne (by decide),
    lookupKey_unionStep_ne (by decide), lookupKey_unionStep_self]
  cases hA : asArr (lookupKey "anyOf" fields) with
  | some xs => rfl
  | none =>
      exact lookupKey_objStep_ne (by decide) (by decide) (by decide) (by decide) fields

theorem lookupKey_strictStep_oneOf (fields : List (String × Json)) :
    lookupKey "oneOf" (strictStep fields) =
      match asArr (lookupKey "oneOf" fields) with
      | some xs => some (.arr (xs.map ensureStrictSchema))
      | none => lookupKey "oneOf" fields := by
  unfold strictStep
  rw [lookupKey_defsStep_ne (by decide), lookupKey_unionStep_ne (by decide),
    lookupKey_unionStep_self]
  cases hA : asArr (lookupKey "oneOf" fields) with
  | some xs => rfl
  | none =>
      rw [lookupKey_unionStep_ne (by decide)]
      exact lookupKey_objStep_ne (by decide) (by decide) (by decide) (by decide) fields

theorem lookupKey_strictStep_allOf (fields : List (String × Json)) :
    lookupKey "allOf" (strictStep fields) =
      match asArr (lookupKey "allOf" fields) with
      | some xs => some (.arr (xs.map ensureStrictSchema))
      | none => lookupKey "allOf" fields := by
  unfold strictStep
  rw [lookupKey_defsStep_ne (by decide), lookupKey_unionStep_self]
  cases hA : asArr (lookupKey "allOf" fields) with
  | some xs => rfl
  | none =>
      rw [lookupKey_unionStep_ne (by decide), lookupKey_unionStep_ne (by decide)]
      exact lookupKey_objStep_ne (by decide) (by decide) (by decide) (by decide) fields

theorem lookupKey_strictStep_defs (fields : List (String × Json)) :
    lookupKey "$defs" (strictStep fields) =
      match asObjFields (lookupKey "$defs" fields) with
      | some ds => some (.obj (ds.map (fun d => (d.1, ensureStrictSchema d.2))))
      | none => lookupKey "$defs" fields := by
  unfold strictStep
  rw [lookupKey_defsStep_self]
  cases hA : asObjFields (lookupKey "$defs" fields) with
  | some ds => rfl
  | none =>
      rw [lookupKey_unionStep_ne (by decide), lookupKey_unionStep_ne (by decide),
        lookupKey_unionStep_ne (by decide)]
      exact lookupKey_objStep_ne (by decide) (by decide) (by decide) (by decide) fields

theorem lookupKey_objStep_AP {fields : List (String × Json)}
    (h : typeIs "object" fields = true) :
    lookupKey "additionalProperties" (objStep fields) = some (.bool false) := by
  cases hp : asObjFields (lookupKey "properties" fields) with
  | none => rw [objStep_noprops_eq h hp, lookupKey_setKey_self]
  | some props =>
      rw [objStep_props_eq h hp, lookupKey_setKey_ne (by decide),
        lookupKey_setKey_ne (by decide), lookupKey_setKey_self]

theorem lookupKey_objStep_required {fields props : List (String × Json)}
    (h : typeIs "object" fields = true)
    (hp : asObjFields (lookupKey "properties" fields) = some props) :
    lookupKey "required" (objStep fields) =
      some (.arr (props.map (fun p => Json.str p.1))) := by
  rw [objStep_props_eq h hp, lookupKey_setKey_ne (by decide), lookupKey_setKey_self]

theorem lookupKey_objStep_properties {fields props : List (String × Json)}
    (h : typeIs "object" fields = true)
    (hp : asObjFields (lookupKey "properties" fields) = some props) :
    lookupKey "properties" (objStep fields) =
      some (.obj (props.map (fun p => (p.1, ensureStrictSchema p.2)))) := by
  rw [objStep_props_eq h hp, lookupKey_setKey_self]

theorem sizeOf_val_in_objval {k : String} {fields fs : List (String × Json)}
    (h : lookupKey k fields = some (.obj fs)) {p : String × Json} (hm : p ∈ fs) :
    sizeOf p.2 < sizeOf fields := by
  have h1 := sizeOf_lookupKey h
  have h2 := sizeOf_mem_pair hm
  simp at h1
  omega

theorem sizeOf_elem_in_arrval {k : String} {fields : List (String × Json)}
    {xs : List Json} (h : lookupKey k fields = some (.arr xs)) {x : Json}
    (hm : x ∈ xs) : sizeOf x < sizeOf fields := by
  have h1 := sizeOf_lookupKey h
  have h2 := sizeOf_mem_json hm
  simp at h1
  omega

theorem unionStep_fix {k : String} {S fields : List (String × Json)}
    (hlook : lookupKey k S =
      match asArr (lookupKey k fields) with
      | some xs => some (.arr (xs.map ensureStrictSchema))
      | none => lookupKey k fields)
    (hidem : ∀ xs, asArr (lookupKey k fields) = some xs → ∀ x ∈ xs,
      ensureStrictSchema (ensureStrictSchema x) = ensureStrictSchema x) :
    unionStep k S S = S := by
  unfold unionStep
  cases hA : asArr (lookupKey k fields) with
  | some xs =>
      rw [hA] at hlook
      have hAS : asArr (lookupKey k S) = some (xs.map ensureStrictSchema) := by
        rw [hlook]
        rfl
      simp only [hAS]
      have hmm : (xs.map ensureStrictSchema).map ensureStrictSchema
          = xs.map ensureStrictSchema := by
        rw [List.map_map]
        exact List.map_congr_left (fun x hx => hidem xs hA x hx)
      rw [hmm]
      exact setKey_lookup_eq hlook
  | none =>
      rw [hA] at hlook
      have hAS : asArr (lookupKey k S) = asArr (lookupKey k fields) := by rw [hlook]
      rw [hAS, hA]

theorem defsStep_fix {S fields : List (String × Json)}
    (hlook : lookupKey "$defs" S =
      match asObjFields (lookupKey "$defs" fields) with
      | some ds => some (.obj (ds.map (fun d => (d.1, ensureStrictSchema d.2))))
      | none => lookupKey "$defs" fields)
    (hidem : ∀ ds, asObjFields (lookupKey "$defs" fields) = some ds → ∀ d ∈ ds,
      ensureStrictSchema (ensureStrictSchema d.2) = ensureStrictSchema d.2) :
    defsStep S S = S := by
  unfold defsStep
  cases hA : asObjFields (lookupKey "$defs" fields) with
  | some ds =>
      rw [hA] at hlook
      have hAS : asObjFields (lookupKey "$defs" S)
          = some (ds.map (fun d => (d.1, ensureStrictSchema d.2))) := by
        rw [hlook]
        rfl
      simp only [hAS]
      have hmm : (ds.map (fun d => (d.1, ensureStrictSchema d.2))).map
            (fun d => (d.1, ensureStrictSchema d.2))
          = ds.map (fun d => (d.1, ensureStrictSchema d.2)) := by
        rw [List.map_map]
        exact List.map_congr_left (fun d hd => by
          simp only [Function.comp_apply]
          rw [hidem ds hA d hd])
      rw [hmm]
      exact setKey_lookup_eq hlook
  | none =>
      rw [hA] at hlook
      have hAS : asObjFields (lookupKey "$defs" S)
          = asObjFields (lookupKey "$defs" fields) := by rw [hlook]
      rw [hAS, hA]

theorem objStep_fix (fields : List (String × Json))
    (IH : ∀ j : Json, sizeOf j < sizeOf fields →
      ensureStrictSchema (ensureStrictSchema j) = ensureStrictSchema j) :
    objStep (strictStep fields) = strictStep fields := by
  cases ho : typeIs "object" fields with
  | false =>
      have hoS : typeIs "object" (strictStep fields) = false := by
        rw [typeIs_strictStep, ho]
      cases ha : typeIs "array" fields with
      | false =>
          have haS : typeIs "array" (strictStep fields) = false := by
            rw [typeIs_strictStep, ha]
          exact objStep_id_eq hoS (Or.inl haS)
      | true =>
          have haS : typeIs "array" (strictStep fields) = true := by
            rw [typeIs_strictStep, ha]
          have hitem : lookupKey "items" (strictStep fields)
              = lookupKey "items" (objStep fields) :=
            lookupKey_strictStep_objpart (by decide) (by decide) (by decide)
              (by decide) fields
          cases hi : lookupKey "items" fields with
          | none =>
              rw [objStep_id_eq ho (Or.inr hi)] at hitem
              exact objStep_id_eq hoS (Or.inr (hitem.trans hi))
          | some it =>
              rw [objStep_items_eq ho ha hi, lookupKey_setKey_self] at hitem
              rw [objStep_items_eq hoS haS hitem, IH it (sizeOf_lookupKey hi)]
              exact setKey_lookup_eq hitem
  | true =>
      have hoS : typeIs "object" (strictStep fields) = true := by
        rw [typeIs_strictStep, ho]
      have hprops : lookupKey "properties" (strictStep fields)
          = lookupKey "properties" (objStep fields) :=
        lookupKey_strictStep_objpart (by decide) (by decide) (by decide)
          (by decide) fields
      have hAP : lookupKey "additionalProperties" (strictStep fields)
          = some (.bool false) := by
        rw [lookupKey_strictStep_objpart (by decide) (by decide) (by decide)
          (by decide) fields]
        exact lookupKey_objStep_AP ho
      cases hp : asObjFields (lookupKey "properties" fields) with
      | none =>
          rw [objStep_noprops_eq ho hp, lookupKey_setKey_ne (by decide)] at hprops
          have hpS : asObjFields (lookupKey "properties" (strictStep fields)) = none := by
            rw [hprops, hp]
          rw [objStep_noprops_eq hoS hpS]
          exact setKey_lookup_eq hAP
      | some props =>
          rw [lookupKey_objStep_properties ho hp] at hprops
          have hpS : asObjFields (lookupKey "properties" (strictStep fields))
              = some (props.map (fun p => (p.1, ensureStrictSchema p.2))) := by
            rw [hprops]
            rfl
          have hreq : lookupKey "required" (strictStep fields)
              = some (.arr (props.map (fun p => Json.str p.1))) := by
            rw [lookupKey_strictStep_objpart (by decide) (by decide) (by decide)
              (by decide) fields]
            exact lookupKey_objStep_required ho hp
          rw [objStep_props_eq hoS hpS]
          have hpfields := asObjFields_eq_some hp
          have hval : (props.map (fun p => (p.1, ensureStrictSchema p.2))).map
                (fun p => (p.1, ensureStrictSchema p.2))
              = props.map (fun p => (p.1, ensureStrictSchema p.2)) := by
            rw [List.map_map]
            exact List.map_congr_left (fun p hm => by
              simp only [Function.comp_apply]
              rw [IH p.2 (sizeOf_val_in_objval hpfields hm)])
          have hnames : (props.map (fun p => (p.1, ensureStrictSchema p.2))).map
                (fun p => Json.str p.1)
              = props.map (fun p => Json.str p.1) := by
            rw [List.map_map]
            rfl
          rw [hval, hnames, setKey_lookup_eq hAP, setKey_lookup_eq hreq]
          exact setKey_lookup_eq hprops

theorem strictStep_idem (fields : List (String × Json))
    (IH : ∀ j : Json, sizeOf j < sizeOf fields →
      ensureStrictSchema (ensureStrictSchema j) = ensureStrictSchema j) :
    strictStep (strictStep fields) = strictStep fields := by
  have hany : unionStep "anyOf" (strictStep fields) (strictStep fields)
      = strictStep fields :=
    unionStep_fix (lookupKey_strictStep_anyOf fields)
      (fun xs hxs x hx => IH x (sizeOf_elem_in_arrval (asArr_eq_some hxs) hx))
  have hone : unionStep "oneOf" (strictStep fields) (strictStep fields)
      = strictStep fields :=
    unionStep_fix (lookupKey_strictStep_oneOf fields)
      (fun xs hxs x hx => IH x (sizeOf_elem_in_arrval (asArr_eq_some hxs) hx))
  have hall : unionStep "allOf" (strictStep fields) (strictStep fields)
      = strictStep fields :=
    unionStep_fix (lookupKey_strictStep_allOf fields)
      (fun xs hxs x hx => IH x (sizeOf_elem_in_arrval (asArr_eq_some hxs) hx))
  have hdefs : defsStep (strictStep fields) (strictStep fields)
      = strictStep fields :=
    defsStep_fix (lookupKey_strictStep_defs fields)
      (fun ds hds d hd => IH d.2 (sizeOf_val_in_objval (asObjFields_eq_some hds) hd))
  show defsStep (strictStep fields)
      (unionStep "allOf" (strictStep fields)
        (unionStep "oneOf" (strictStep fields)
          (unionStep "anyOf" (strictStep fields) (objStep (strictStep fields)))))
    = strictStep fields
  rw [objStep_fix fields IH, hany, hone, hall, hdefs]

theorem ensureStrict_idem_aux : ∀ (n : Nat) (j : Json), sizeOf j ≤ n →
    ensureStrictSchema (ensureStrictSchema j) = ensureStrictSchema j := by
  intro n
  induction n with
  | zero =>
      intro j hj
      cases j <;> simp at hj
  | succ n ih =>
      intro j hj
      cases j with
      | obj fields =>
          rw [strict_obj, strict_obj]
          have hsz : sizeOf (Json.obj fields) ≤ n + 1 := hj
          simp only [Json.obj.sizeOf_spec] at hsz
          exact congrArg Json.obj
            (strictStep_idem fields (fun j2 hj2 => ih j2 (by omega)))
      | null =>
          have hne : ∀ fs, Json.null ≠ Json.obj fs := fun _ h => Json.noConfusion h
          rw [strict_not_obj _ hne, strict_not_obj _ hne]
      | bool b =>
          have hne : ∀ fs, Json.bool b ≠ Json.obj fs := fun _ h => Json.noConfusion h
          rw [strict_not_obj _ hne, strict_not_obj _ hne]
      | num x =>
          have hne : ∀ fs, Json.num x ≠ Json.obj fs := fun _ h => Json.noConfusion h
          rw [strict_not_obj _ hne, strict_not_obj _ hne]
      | str s =>
          have hne : ∀ fs, Json.str s ≠ Json.obj fs := fun _ h => Json.noConfusion h
          rw [strict_not_obj _ hne, strict_not_obj _ hne]
      | arr xs =>
          have hne : ∀ fs, Json.arr xs ≠ Json.obj fs := fun _ h => Json.noConfusion h
          rw [strict_not_obj _ hne, strict_not_obj _ hne]

/-- C1: `strictify` (the embedding `ensureStrictSchema` of
`ensure_strict_schema`) is idempotent: applying it twice to any schema
tree yields the same result as applying it once.  This is proved for
every `Json` tree, hence in particular for every well-formed schema. -/
theorem ensure_strict_schema_idempotent (s : Json) :
    ensureStrictSchema (ensureStrictSchema s) = ensureStrictSchema s :=
  ensureStrict_idem_aux (sizeOf s) s (Nat.le_refl _)

theorem strict_null : ensureStrictSchema .null = .null :=
  strict_not_obj _ (fun _ h => Json.noConfusion h)

theorem strict_bool (b : Bool) : ensureStrictSchema (.bool b) = .bool b :=
  strict_not_obj _ (fun _ h => Json.noConfusion h)

theorem strict_num (x : Rat) : ensureStrictSchema (.num x) = .num x :=
  strict_not_obj _ (fun _ h => Json.noConfusion h)

theorem strict_str (s : String) : ensureStrictSchema (.str s) = .str s :=
  strict_not_obj _ (fun _ h => Json.noConfusion h)

theorem strict_arr (xs : List Json) : ensureStrictSchema (.arr xs) = .arr xs :=
  strict_not_obj _ (fun _ h => Json.noConfusion h)

/-- Projection to the field list of an object node. -/
def objFields : Json → List (String × Json)
  | .obj fs => fs
  | _ => []

example :
    ensureStrictSchema
      (.obj [("type", .str "object"),
             ("properties", .obj [("a", .obj [("type", .str "object")])])])
    = .obj [("type", .str "object"),
            ("properties", .obj [("a", .obj [("type", .str "object"),
                                             ("additionalProperties", .bool false)])]),
            ("additionalProperties", .bool false),
            ("required", .arr [.str "a"])] := by
  simp [strict_obj, strictStep, defsStep, unionStep, objStep, typeIs,
    asArr, asObjFields, lookupKey, setKey]

/-- C2: after strictify, every object-type node has
`additionalProperties = false`; if it declares `properties`, its
`required` is overwritten to exactly the property names in declaration
order and every property sub-schema is recursively strictified; if it
declares no `properties` key, nothing is written to `required`. -/
theorem strictify_object_node (fields : List (String × Json))
    (h : typeIs "object" fields = true) :
    lookupKey "additionalProperties" (objFields (ensureStrictSchema (.obj fields)))
        = some (.bool false)
    ∧ (∀ props, lookupKey "properties" fields = some (.obj props) →
        lookupKey "required" (objFields (ensureStrictSchema (.obj fields)))
            = some (.arr (props.map (fun p => Json.str p.1)))
        ∧ lookupKey "properties" (objFields (ensureStrictSchema (.obj fields)))
            = some (.obj (props.map (fun p => (p.1, ensureStrictSchema p.2)))))
    ∧ (lookupKey "properties" fields = none →
        lookupKey "required" (objFields (ensureStrictSchema (.obj fields)))
            = lookupKey "required" fields) := by
  rw [strict_obj]
  simp only [objFields]
  refine ⟨?_, ?_, ?_⟩
  · rw [lookupKey_strictStep_objpart (by decide) (by decide) (by decide) (by decide)]
    exact lookupKey_objStep_AP h
  · intro props hp
    have hp2 : asObjFields (lookupKey "properties" fields) = some props := by
      rw [hp]
      rfl
    constructor
    · rw [lookupKey_strictStep_objpart (by decide) (by decide) (by decide) (by decide)]
      exact lookupKey_objStep_required h hp2
    · rw [lookupKey_strictStep_objpart (by decide) (by decide) (by decide) (by decide)]
      exact lookupKey_objStep_properties h hp2
  · intro hp
    have hp2 : asObjFields (lookupKey "properties" fields) = none := by
      rw [hp]
      rfl
    rw [lookupKey_strictStep_objpart (by decide) (by decide) (by decide) (by decide),
      objStep_noprops_eq h hp2, lookupKey_setKey_ne (by decide)]

/-- Concrete input for the C2 witness: an object node with one property. -/
def c2Fields : List (String × Json) :=
  [("type", .str "object"),
   ("properties", .obj [("a", .obj [("type", .str "integer")])])]

/-- Witness for C2 at a concrete object schema. -/
theorem strictify_object_node_witness :
    typeIs "object" c2Fields = true
    ∧ lookupKey "properties" c2Fields = some (.obj [("a", .obj [("type", .str "integer")])])
    ∧ lookupKey "additionalProperties" (objFields (ensureStrictSchema (.obj c2Fields)))
        = some (.bool false)
    ∧ lookupKey "required" (objFields (ensureStrictSchema (.obj c2Fields)))
        = some (.arr [.str "a"]) := by
  have h := strictify_object_node c2Fields rfl
  have hb := h.2.1 [("a", .obj [("type", .str "integer")])] rfl
  exact ⟨rfl, rfl, h.1, hb.1⟩

/-- C3: strictify applies every matching rule at a node rather than a
single branch: whenever a node matches the object rule (or the
array-with-items rule) and also carries `anyOf`/`oneOf`/`allOf` lists or
`$defs`, every member of each union list and every named definition is
recursively strictified as well; and for an array schema whose `items`
is an object-type schema, the strictified `items` has
`additionalProperties = false`. -/
theorem strictify_applies_all_rules (fields : List (String × Json))
    (hmatch : typeIs "object" fields = true
      ∨ (typeIs "array" fields = true ∧ (lookupKey "items" fields).isSome)) :
    (∀ xs, lookupKey "anyOf" fields = some (.arr xs) →
      lookupKey "anyOf" (objFields (ensureStrictSchema (.obj fields)))
        = some (.arr (xs.map ensureStrictSchema)))
    ∧ (∀ xs, lookupKey "oneOf" fields = some (.arr xs) →
      lookupKey "oneOf" (objFields (ensureStrictSchema (.obj fields)))
        = some (.arr (xs.map ensureStrictSchema)))
    ∧ (∀ xs, lookupKey "allOf" fields = some (.arr xs) →
      lookupKey "allOf" (objFields (ensureStrictSchema (.obj fields)))
        = some (.arr (xs.map ensureStrictSchema)))
    ∧ (∀ ds, lookupKey "$defs" fields = some (.obj ds) →
      lookupKey "$defs" (objFields (ensureStrictSchema (.obj fields)))
        = some (.obj (ds.map (fun d => (d.1, ensureStrictSchema d.2)))))
    ∧ (∀ ifs, typeIs "object" fields = false → typeIs "array" fields = true →
        lookupKey "items" fields = some (.obj ifs) → typeIs "object" ifs = true →
        lookupKey "items" (objFields (ensureStrictSchema (.obj fields)))
            = some (ensureStrictSchema (.obj ifs))
        ∧ lookupKey "additionalProperties"
            (objFields (ensureStrictSchema (.obj ifs))) = some (.bool false)) := by
  rw [strict_obj]
  simp only [objFields]
  refine ⟨?_, ?_, ?_, ?_, ?_⟩
  · intro xs hx
    rw [lookupKey_strictStep_anyOf, hx]
    rfl
  · intro xs hx
    rw [lookupKey_strictStep_oneOf, hx]
    rfl
  · intro xs hx
    rw [lookupKey_strictStep_allOf, hx]
    rfl
  · intro ds hd
    rw [lookupKey_strictStep_defs, hd]
    rfl
  · intro ifs ho ha hi hio
    constructor
    · rw [lookupKey_strictStep_objpart (by decide) (by decide) (by decide) (by decide),
        objStep_items_eq ho ha hi, lookupKey_setKey_self]
    · rw [strict_obj]
      simp only [objFields]
      rw [lookupKey_strictStep_objpart (by decide) (by decide) (by decide) (by decide)]
      exact lookupKey_objStep_AP hio

/-- Concrete input for the C3 witness: an array node whose `items` is an
object schema, which also carries an `anyOf` list and `$defs`. -/
def c3Fields : List (String × Json) :=
  [("type", .str "array"),
   ("items", .obj [("type", .str "object")]),
   ("anyOf", .arr [.obj [("type", .str "object")]]),
   ("$defs", .obj [("D", .obj [("type", .str "object")])])]

/-- Witness for C3 at a concrete array-with-items schema carrying
`anyOf` and `$defs`. -/
theorem strictify_applies_all_rules_witness :
    (typeIs "array" c3Fields = true ∧ (lookupKey "items" c3Fields).isSome)
    ∧ lookupKey "anyOf" (objFields (ensureStrictSchema (.obj c3Fields)))
        = some (.arr ([Json.obj [("type", .str "object")]].map ensureStrictSchema))
    ∧ lookupKey "$defs" (objFields (ensureStrictSchema (.obj c3Fields)))
        = some (.obj ([("D", Json.obj [("type", .str "object")])].map
            (fun d => (d.1, ensureStrictSchema d.2))))
    ∧ lookupKey "items" (objFields (ensureStrictSchema (.obj c3Fields)))
        = some (ensureStrictSchema (.obj [("type", .str "object")]))
    ∧ lookupKey "additionalProperties"
        (objFields (ensureStrictSchema (.obj [("type", Json.str "object")])))
        = some (.bool false) := by
  have h := strictify_applies_all_rules c3Fields (Or.inr ⟨rfl, rfl⟩)
  have hitems := h.2.2.2.2 [("type", .str "object")] rfl rfl rfl rfl
  exact ⟨⟨rfl, rfl⟩, h.1 _ rfl, h.2.2.2.1 _ rfl, hitems.1, hitems.2⟩

/-!
Embedding of the request models (src/models/requests.py) and of
`build_weather_params` (src/utils/request_utils.py).

`CurrentWeatherParameters` has 47 `Optional[bool]` fields, all defaulting
to `False`; Python's `Optional[bool]` values `None`/`True`/`False` become
`none`/`some true`/`some false`.  Latitude/longitude/elevation are Python
floats that the builder only copies, modeled as rationals.
-/

structure CurrentWeatherParameters where
  temperature_2m : Option Bool := some false
  relative_humidity_2m : Option Bool := some false
  dew_point_2m : Option Bool := some false
  apparent_temperature : Option Bool := some false
  pressure_msl : Option Bool := some false
  surface_pressure : Option Bool := some false
  cloud_cover : Option Bool := some false
  cloud_cover_low : Option Bool := some false
  cloud_cover_mid : Option Bool := some false
  cloud_cover_high : Option Bool := some false
  wind_speed_10m : Option Bool := some false
  wind_speed_80m : Option Bool := some false
  wind_speed_120m : Option Bool := some false
  wind_speed_180m : Option Bool := some false
  wind_direction_10m : Option Bool := some false
  wind_direction_80m : Option Bool := some false
  wind_direction_120m : Option Bool := some false
  wind_direction_180m : Option Bool := some false
  wind_gusts_10m : Option Bool := some false
  shortwave_radiation : Option Bool := some false
  direct_radiation : Option Bool := some false
  direct_normal_irradiance : Option Bool := some false
  diffuse_radiation : Option Bool := some false
  global_tilted_irradiance : Option Bool := some false
  vapour_pressure_deficit : Option Bool := some false
  cape : Option Bool := some false
  evapotranspiration : Option Bool := some false
  et0_fao_evapotranspiration : Option Bool := some false
  precipitation : Option Bool := some false
  snowfall : Option Bool := some false
  precipitation_probability : Option Bool := some false
  rain : Option Bool := some false
  showers : Option Bool := some false
  weather_code : Option Bool := some false
  snow_depth : Option Bool := some false
  freezing_level_height : Option Bool := some false
  visibility : Option Bool := some false
  soil_temperature_0cm : Option Bool := some false
  soil_temperature_6cm : Option Bool := some false
  soil_temperature_18cm : Option Bool := some false
  soil_temperature_54cm : Option Bool := some false
  soil_moisture_0_to_1cm : Option Bool := some false
  soil_moisture_1_to_3cm : Option Bool := some false
  soil_moisture_3_to_9cm : Option Bool := some false
  soil_moisture_9_to_27cm : Option Bool := some false
  soil_moisture_27_to_81cm : Option Bool := some false
  is_day : Option Bool := some false
deriving Repr, DecidableEq

/-- Python's `self.__dict__.items()`: the (name, value) pairs of a
`CurrentWeatherParameters` instance, in declaration order. -/
def parameterItems (p : CurrentWeatherParameters) : List (String × Option Bool) :=
  [("temperature_2m", p.temperature_2m),
   ("relative_humidity_2m", p.relative_humidity_2m),
   ("dew_point_2m", p.dew_point_2m),
   ("apparent_temperature", p.apparent_temperature),
   ("pressure_msl", p.pressure_msl),
   ("surface_pressure", p.surface_pressure),
   ("cloud_cover", p.cloud_cover),
   ("cloud_cover_low", p.cloud_cover_low),
   ("cloud_cover_mid", p.cloud_cover_mid),
   ("cloud_cover_high", p.cloud_cover_high),
   ("wind_speed_10m", p.wind_speed_10m),
   ("wind_speed_80m", p.wind_speed_80m),
   ("wind_speed_120m", p.wind_speed_120m),
   ("wind_speed_180m", p.wind_speed_180m),
   ("wind_direction_10m", p.wind_direction_10m),
   ("wind_direction_80m", p.wind_direction_80m),
   ("wind_direction_120m", p.wind_direction_120m),
   ("wind_direction_180m", p.wind_direction_180m),
   ("wind_gusts_10m", p.wind_gusts_10m),
   ("shortwave_radiation", p.shortwave_radiation),
   ("direct_radiation", p.direct_radiation),
   ("direct_normal_irradiance", p.direct_normal_irradiance),
   ("diffuse_radiation", p.diffuse_radiation),
   ("global_tilted_irradiance", p.global_tilted_irradiance),
   ("vapour_pressure_deficit", p.vapour_pressure_deficit),
   ("cape", p.cape),
   ("evapotranspiration", p.evapotranspiration),
   ("et0_fao_evapotranspiration", p.et0_fao_evapotranspiration),
   ("precipitation", p.precipitation),
   ("snowfall", p.snowfall),
   ("precipitation_probability", p.precipitation_probability),
   ("rain", p.rain),
   ("showers", p.showers),
   ("weather_code", p.weather_code),
   ("snow_depth", p.snow_depth),
   ("freezing_level_height", p.freezing_level_height),
   ("visibility", p.visibility),
   ("soil_temperature_0cm", p.soil_temperature_0cm),
   ("soil_temperature_6cm", p.soil_temperature_6cm),
   ("soil_temperature_18cm", p.soil_temperature_18cm),
   ("soil_temperature_54cm", p.soil_temperature_54cm),
   ("soil_moisture_0_to_1cm", p.soil_moisture_0_to_1cm),
   ("soil_moisture_1_to_3cm", p.soil_moisture_1_to_3cm),
   ("soil_moisture_3_to_9cm", p.soil_moisture_3_to_9cm),
   ("soil_moisture_9_to_27cm", p.soil_moisture_9_to_27cm),
   ("soil_moisture_27_to_81cm", p.soil_moisture_27_to_81cm),
   ("is_day", p.is_day)]

/-- `CurrentWeatherParameters.get_selected_parameters`: the names of
the fields whose value `is True`, in declaration order. -/
def getSelectedParameters (p : CurrentWeatherParameters) : List String :=
  (parameterItems p).filterMap
    (fun f => if f.2 = some true then some f.1 else none)

structure CurrentWeatherRequest where
  latitude : Rat
  longitude : Rat
  elevation : Option Rat := none
  current : Option CurrentWeatherParameters := none
  temperature_unit : Option String := some "celsius"
  wind_speed_unit : Option String := some "kmh"
  precipitation_unit : Option String := some "mm"
  timeformat : Option String := some "iso8601"
  timezone : Option String := some "GMT"
  models : Option (List String) := none
  cell_selection : Option String := some "land"
deriving Repr, DecidableEq

/-- A value in the query-parameter dict built for the OpenMeteo API. -/
inductive ParamValue where
  | null : ParamValue
  | num (x : Rat) : ParamValue
  | str (s : String) : ParamValue
deriving Repr, DecidableEq

/-- A Python `Optional[str]` inserted into the params dict. -/
def optStrVal : Option String → ParamValue
  | none => .null
  | some s => .str s

def lookupParam (k : String) : List (String × ParamValue) → Option ParamValue
  | [] => none
  | f :: fs => if f.1 = k then some f.2 else lookupParam k fs

/-! One definition per `**({} if … else {…})` line of `build_weather_params`. -/

def elevationParam (r : CurrentWeatherRequest) : List (String × ParamValue) :=
  match r.elevation with
  | none => []
  | some e => [("elevation", .num e)]

def currentParam (r : CurrentWeatherRequest) : List (String × ParamValue) :=
  match r.current with
  | none => []
  | some p =>
      if getSelectedParameters p = [] then []
      else [("current", .str (String.intercalate "," (getSelectedParameters p)))]

def temperatureUnitParam (r : CurrentWeatherRequest) : List (String × ParamValue) :=
  if r.temperature_unit = some "celsius" then []
  else [("temperature_unit", optStrVal r.temperature_unit)]

def windSpeedUnitParam (r : CurrentWeatherRequest) : List (String × ParamValue) :=
  if r.wind_speed_unit = some "kmh" then []
  else [("wind_speed_unit", optStrVal r.wind_speed_unit)]

def precipitationUnitParam (r : CurrentWeatherRequest) : List (String × ParamValue) :=
  if r.precipitation_unit = some "mm" then []
  else [("precipitation_unit", optStrVal r.precipitation_unit)]

def timeformatParam (r : CurrentWeatherRequest) : List (String × ParamValue) :=
  if r.timeformat = some "iso8601" then []
  else [("timeformat", optStrVal r.timeformat)]

def timezoneParam (r : CurrentWeatherRequest) : List (String × ParamValue) :=
  if r.timezone = some "GMT" then []
  else [("timezone", optStrVal r.timezone)]

def modelsParam (r : CurrentWeatherRequest) : List (String × ParamValue) :=
  match r.models with
  | none => []
  | some l =>
      if l = ["string"] ∨ l = [] then []
      else [("models", .str (String.intercalate "," l))]

def cellSelectionParam (r : CurrentWeatherRequest) : List (String × ParamValue) :=
  if r.cell_selection = some "land" then []
  else [("cell_selection", optStrVal r.cell_selection)]

/-- Embedding of `build_weather_params` (src/utils/request_utils.py).
The Python dict literal inserts keys in source order; each `**(…)`
conditional contributes its (possibly empty) segment in that order. -/
def buildWeatherParams (r : CurrentWeatherRequest) : List (String × ParamValue) :=
  [("latitude", .num r.latitude), ("longitude", .num r.longitude)]
    ++ elevationParam r
    ++ currentParam r
    ++ temperatureUnitParam r
    ++ windSpeedUnitParam r
    ++ precipitationUnitParam r
    ++ timeformatParam r
    ++ timezoneParam r
    ++ modelsParam r
    ++ cellSelectionParam r

theorem lookupParam_append (k : String) (l1 l2 : List (String × ParamValue)) :
    lookupParam k (l1 ++ l2) =
      match lookupParam k l1 with
      | some v => some v
      | none => lookupParam k l2 := by
  induction l1 with
  | nil => rfl
  | cons f fs ih =>
      simp only [List.cons_append, lookupParam]
      split <;> simp [ih]

theorem lookupParam_elevation_ne {k : String} (h : k ≠ "elevation")
    (r : CurrentWeatherRequest) : lookupParam k (elevationParam r) = none := by
  unfold elevationParam
  cases r.elevation <;> simp [lookupParam, Ne.symm h]

theorem lookupParam_current_ne {k : String} (h : k ≠ "current")
    (r : CurrentWeatherRequest) : lookupParam k (currentParam r) = none := by
  unfold currentParam
  split
  · rfl
  · split <;> simp [lookupParam, Ne.symm h]

theorem lookupParam_temperature_unit_ne {k : String} (h : k ≠ "temperature_unit")
    (r : CurrentWeatherRequest) : lookupParam k (temperatureUnitParam r) = none := by
  unfold temperatureUnitParam
  split <;> simp [lookupParam, Ne.symm h]

theorem lookupParam_wind_speed_unit_ne {k : String} (h : k ≠ "wind_speed_unit")
    (r : CurrentWeatherRequest) : lookupParam k (windSpeedUnitParam r) = none := by
  unfold windSpeedUnitParam
  split <;> simp [lookupParam, Ne.symm h]

theorem lookupParam_precipitation_unit_ne {k : String} (h : k ≠ "precipitation_unit")
    (r : CurrentWeatherRequest) : lookupParam k (precipitationUnitParam r) = none := by
  unfold precipitationUnitParam
  split <;> simp [lookupParam, Ne.symm h]

theorem lookupParam_timeformat_ne {k : String} (h : k ≠ "timeformat")
    (r : CurrentWeatherRequest) : lookupParam k (timeformatParam r) = none := by
  unfold timeformatParam
  split <;> simp [lookupParam, Ne.symm h]

theorem lookupParam_timezone_ne {k : String} (h : k ≠ "timezone")
    (r : CurrentWeatherRequest) : lookupParam k (timezoneParam r) = none := by
  unfold timezoneParam
  split <;> simp [lookupParam, Ne.symm h]

theorem lookupParam_models_ne {k : String} (h : k ≠ "models")
    (r : CurrentWeatherRequest) : lookupParam k (modelsParam r) = none := by
  unfold modelsParam
  split
  · rfl
  · split <;> simp [lookupParam, Ne.symm h]

theorem lookupParam_cell_selection_ne {k : String} (h : k ≠ "cell_selection")
    (r : CurrentWeatherRequest) : lookupParam k (cellSelectionParam r) = none := by
  unfold cellSelectionParam
  split <;> simp [lookupParam, Ne.symm h]

/-- C4: `build_weather_params` always contains `latitude` and `longitude`
with exactly the request's values, and contains `elevation` exactly when
the request's elevation is present, with the exact value. -/
theorem build_weather_params_coords (r : CurrentWeatherRequest) :
    lookupParam "latitude" (buildWeatherParams r) = some (.num r.latitude)
    ∧ lookupParam "longitude" (buildWeatherParams r) = some (.num r.longitude)
    ∧ lookupParam "elevation" (buildWeatherParams r)
        = match r.elevation with
          | none => none
          | some e => some (.num e) := by
  refine ⟨?_, ?_, ?_⟩
  · simp [buildWeatherParams, lookupParam_append, lookupParam]
  · simp [buildWeatherParams, lookupParam_append, lookupParam]
  · cases he : r.elevation with
    | some e =>
        simp [buildWeatherParams, lookupParam_append, lookupParam, elevationParam, he]
    | none =>
        simp [buildWeatherParams, lookupParam_append, lookupParam, elevationParam, he,
          lookupParam_current_ne, lookupParam_temperature_unit_ne,
          lookupParam_wind_speed_unit_ne, lookupParam_precipitation_unit_ne,
          lookupParam_timeformat_ne, lookupParam_timezone_ne,
          lookupParam_models_ne, lookupParam_cell_selection_ne]

/-- C5: `build_weather_params` contains `current` exactly when the
request's parameter set is present and selects at least one flag, and
its value is the comma-join of the selected flag names in declaration
order; in particular `temperature_2m=true, wind_speed_10m=true` yields
`"temperature_2m,wind_speed_10m"`. -/
theorem build_weather_params_current_key (r : CurrentWeatherRequest) :
    (lookupParam "current" (buildWeatherParams r)
      = match r.current with
        | none => none
        | some p =>
            if getSelectedParameters p = [] then none
            else some (.str (String.intercalate "," (getSelectedParameters p))))
    ∧ getSelectedParameters
        { temperature_2m := some true, wind_speed_10m := some true }
      = ["temperature_2m", "wind_speed_10m"]
    ∧ lookupParam "current" (buildWeatherParams
        { latitude := 0, longitude := 0,
          current := some { temperature_2m := some true,
                            wind_speed_10m := some true } })
      = some (.str "temperature_2m,wind_speed_10m") := by
  refine ⟨?_, by decide, by decide⟩
  cases hc : r.current with
  | none =>
      simp [buildWeatherParams, lookupParam_append, lookupParam, currentParam, hc,
        lookupParam_elevation_ne, lookupParam_temperature_unit_ne,
        lookupParam_wind_speed_unit_ne, lookupParam_precipitation_unit_ne,
        lookupParam_timeformat_ne, lookupParam_timezone_ne,
        lookupParam_models_ne, lookupParam_cell_selection_ne]
  | some p =>
      by_cases hg : getSelectedParameters p = []
      · simp [buildWeatherParams, lookupParam_append, lookupParam, currentParam, hc, hg,
          lookupParam_elevation_ne, lookupParam_temperature_unit_ne,
          lookupParam_wind_speed_unit_ne, lookupParam_precipitation_unit_ne,
          lookupParam_timeformat_ne, lookupParam_timezone_ne,
          lookupParam_models_ne, lookupParam_cell_selection_ne]
      · simp [buildWeatherParams, lookupParam_append, lookupParam, currentParam, hc, hg,
          lookupParam_elevation_ne]

/-- C6: each unit/format field is included exactly when it differs from
its specific default (`celsius` / `kmh` / `mm` / `iso8601` / `GMT` /
`land`), and `models` is included exactly when it is non-null, non-empty
and not the sentinel `["string"]`, comma-joined. -/
theorem build_weather_params_default_fields (r : CurrentWeatherRequest) :
    (lookupParam "temperature_unit" (buildWeatherParams r)
      = if r.temperature_unit = some "celsius" then none
        else some (optStrVal r.temperature_unit))
    ∧ (lookupParam "wind_speed_unit" (buildWeatherParams r)
      = if r.wind_speed_unit = some "kmh" then none
        else some (optStrVal r.wind_speed_unit))
    ∧ (lookupParam "precipitation_unit" (buildWeatherParams r)
      = if r.precipitation_unit = some "mm" then none
        else some (optStrVal r.precipitation_unit))
    ∧ (lookupParam "timeformat" (buildWeatherParams r)
      = if r.timeformat = some "iso8601" then none
        else some (optStrVal r.timeformat))
    ∧ (lookupParam "timezone" (buildWeatherParams r)
      = if r.timezone = some "GMT" then none
        else some (optStrVal r.timezone))
    ∧ (lookupParam "cell_selection" (buildWeatherParams r)
      = if r.cell_selection = some "land" then none
        else some (optStrVal r.cell_selection))
    ∧ (lookupParam "models" (buildWeatherParams r)
      = match r.models with
        | none => none
        | some l =>
            if l = ["string"] ∨ l = [] then none
            else some (.str (String.intercalate "," l)))
    ∧ lookupParam "temperature_unit"
        (buildWeatherParams { latitude := 0, longitude := 0 }) = none
    ∧ lookupParam "temperature_unit"
        (buildWeatherParams { latitude := 0, longitude := 0,
                              temperature_unit := some "fahrenheit" })
      = some (.str "fahrenheit") := by
  refine ⟨?_, ?_, ?_, ?_, ?_, ?_, ?_, by decide, by decide⟩
  · by_cases ht : r.temperature_unit = some "celsius" <;>
      simp [buildWeatherParams, lookupParam_append, lookupParam,
        temperatureUnitParam, ht, lookupParam_elevation_ne, lookupParam_current_ne,
        lookupParam_wind_speed_unit_ne, lookupParam_precipitation_unit_ne,
        lookupParam_timeformat_ne, lookupParam_timezone_ne,
        lookupParam_models_ne, lookupParam_cell_selection_ne]
  · by_cases ht : r.wind_speed_unit = some "kmh" <;>
      simp [buildWeatherParams, lookupParam_append, lookupParam,
        windSpeedUnitParam, ht, lookupParam_elevation_ne, lookupParam_current_ne,
        lookupParam_temperature_unit_ne, lookupParam_precipitation_unit_ne,
        lookupParam_timeformat_ne, lookupParam_timezone_ne,
        lookupParam_models_ne, lookupParam_cell_selection_ne]
  · by_cases ht : r.precipitation_unit = some "mm" <;>
      simp [buildWeatherParams, lookupParam_append, lookupParam,
        precipitationUnitParam, ht, lookupParam_elevation_ne, lookupParam_current_ne,
        lookupParam_temperature_unit_ne, lookupParam_wind_speed_unit_ne,
        lookupParam_timeformat_ne, lookupParam_timezone_ne,
        lookupParam_models_ne, lookupParam_cell_selection_ne]
  · by_cases ht : r.timeformat = some "iso8601" <;>
      simp [buildWeatherParams, lookupParam_append, lookupParam,
        timeformatParam, ht, lookupParam_elevation_ne, lookupParam_current_ne,
        lookupParam_temperature_unit_ne, lookupParam_wind_speed_unit_ne,
        lookupParam_precipitation_unit_ne, lookupParam_timezone_ne,
        lookupParam_models_ne, lookupParam_cell_selection_ne]
  · by_cases ht : r.timezone = some "GMT" <;>
      simp [buildWeatherParams, lookupParam_append, lookupParam,
        timezoneParam, ht, lookupParam_elevation_ne, lookupParam_current_ne,
        lookupParam_temperature_unit_ne, lookupParam_wind_speed_unit_ne,
        lookupParam_precipitation_unit_ne, lookupParam_timeformat_ne,
        lookupParam_models_ne, lookupParam_cell_selection_ne]
  · by_cases ht : r.cell_selection = some "land" <;>
      simp [buildWeatherParams, lookupParam_append, lookupParam,
        cellSelectionParam, ht, lookupParam_elevation_ne, lookupParam_current_ne,
        lookupParam_temperature_unit_ne, lookupParam_wind_speed_unit_ne,
        lookupParam_precipitation_unit_ne, lookupParam_timeformat_ne,
        lookupParam_timezone_ne, lookupParam_models_ne]
  · cases hm : r.models with
    | none =>
        simp [buildWeatherParams, lookupParam_append, lookupParam, modelsParam, hm,
          lookupParam_elevation_ne, lookupParam_current_ne,
          lookupParam_temperature_unit_ne, lookupParam_wind_speed_unit_ne,
          lookupParam_precipitation_unit_ne, lookupParam_timeformat_ne,
          lookupParam_timezone_ne, lookupParam_cell_selection_ne]
    | some l =>
        by_cases hl : l = ["string"] ∨ l = []
        · simp [buildWeatherParams, lookupParam_append, lookupParam, modelsParam, hm, hl,
            lookupParam_elevation_ne, lookupParam_current_ne,
            lookupParam_temperature_unit_ne, lookupParam_wind_speed_unit_ne,
            lookupParam_precipitation_unit_ne, lookupParam_timeformat_ne,
            lookupParam_timezone_ne, lookupParam_cell_selection_ne]
        · simp [buildWeatherParams, lookupParam_append, lookupParam, modelsParam, hm, hl,
            lookupParam_elevation_ne, lookupParam_current_ne,
            lookupParam_temperature_unit_ne, lookupParam_wind_speed_unit_ne,
            lookupParam_precipitation_unit_ne, lookupParam_timeformat_ne,
            lookupParam_timezone_ne]

/-!
Embedding of `get_weather_request_parameters_description`
(src/utils/request_utils.py) over the `CurrentWeatherRequest` model
fields (src/models/requests.py), with their declaration order and
description strings.
-/

def latitudeDesc : String :=
  "Geographical WGS84 coordinate of the location (latitude). Multiple coordinates can be comma separated."

def longitudeDesc : String :=
  "Geographical WGS84 coordinate of the location (longitude). Multiple coordinates can be comma separated."

def elevationDesc : String :=
  "The elevation used for statistical downscaling. Per default, a 90 meter digital elevation model is used. You can manually set the elevation to correctly match mountain peaks. If elevation=nan is specified, downscaling will be disabled and the API uses the average grid-cell height. For multiple locations, elevation can also be comma separated."

def currentDesc : String :=
  "A list of weather variables to get current conditions."

def temperatureUnitDesc : String :=
  "If fahrenheit is set, all temperature values are converted to Fahrenheit."

def windSpeedUnitDesc : String :=
  "Wind speed units: kmh (default), ms, mph and kn"

def precipitationUnitDesc : String :=
  "Precipitation amount units: mm (default) or inch"

def timeformatDesc : String :=
  "If format unixtime is selected, all time values are returned in UNIX epoch time in seconds. Please note that all timestamp are in GMT+0! For daily values with unix timestamps, please apply utc_offset_seconds again to get the correct date."

def timezoneDesc : String :=
  "If timezone is set, all timestamps are returned as local-time and data is returned starting at 00:00 local-time. Any time zone name from the time zone database is supported. If auto is set as a time zone, the coordinates will be automatically resolved to the local time zone. For multiple coordinates, a comma separated list of timezones can be specified."

def modelsDesc : String :=
  "Manually select one or more weather models. Per default, the best suitable weather models will be combined."

def cellSelectionDesc : String :=
  "Set a preference how grid-cells are selected. The default land finds a suitable grid-cell on land with similar elevation to the requested coordinates using a 90-meter digital elevation model. sea prefers grid-cells on sea. nearest selects the nearest possible grid-cell."

/-- `CurrentWeatherRequest.model_fields`: (name, description) in
declaration order. -/
def currentWeatherRequestModelFields : List (String × Option String) :=
  [("latitude", some latitudeDesc),
   ("longitude", some longitudeDesc),
   ("elevation", some elevationDesc),
   ("current", some currentDesc),
   ("temperature_unit", some temperatureUnitDesc),
   ("wind_speed_unit", some windSpeedUnitDesc),
   ("precipitation_unit", some precipitationUnitDesc),
   ("timeformat", some timeformatDesc),
   ("timezone", some timezoneDesc),
   ("models", some modelsDesc),
   ("cell_selection", some cellSelectionDesc)]

/-- Python's `field_info.description or "No description available"`:
`or` falls back on `None` and on the empty string (both falsy). -/
def descOr : Option String → String
  | none => "No description available"
  | some s => if s = "" then "No description available" else s

/-- The exclusion set `{"current", "latitude", "longitude"}`. -/
def excludedRequestFields : List String := ["current", "latitude", "longitude"]

/-- Embedding of `get_weather_request_parameters_description`:
iterate the model fields in declaration order, skip the excluded names,
render `name: description`, and join with `", "`. -/
def get_weather_request_parameters_description : String :=
  String.intercalate ", "
    ((currentWeatherRequestModelFields.filter
        (fun f => ¬ excludedRequestFields.contains f.1)).map
      (fun f => f.1 ++ ": " ++ descOr f.2))

/-- C9: the request-parameters description drops exactly the
`current`, `latitude` and `longitude` fields; every remaining field is
rendered as `name: description` in declaration order. -/
theorem request_description_excludes_fields :
    ((currentWeatherRequestModelFields.filter
        (fun f => ¬ excludedRequestFields.contains f.1)).map Prod.fst)
      = ["elevation", "temperature_unit", "wind_speed_unit",
         "precipitation_unit", "timeformat", "timezone", "models",
         "cell_selection"]
    ∧ "current" ∉ ((currentWeatherRequestModelFields.filter
        (fun f => ¬ excludedRequestFields.contains f.1)).map Prod.fst)
    ∧ "latitude" ∉ ((currentWeatherRequestModelFields.filter
        (fun f => ¬ excludedRequestFields.contains f.1)).map Prod.fst)
    ∧ "longitude" ∉ ((currentWeatherRequestModelFields.filter
        (fun f => ¬ excludedRequestFields.contains f.1)).map Prod.fst)
    ∧ get_weather_request_parameters_description
      = String.intercalate ", "
          ["elevation: " ++ elevationDesc,
           "temperature_unit: " ++ temperatureUnitDesc,
           "wind_speed_unit: " ++ windSpeedUnitDesc,
           "precipitation_unit: " ++ precipitationUnitDesc,
           "timeformat: " ++ timeformatDesc,
           "timezone: " ++ timezoneDesc,
           "models: " ++ modelsDesc,
           "cell_selection: " ++ cellSelectionDesc] := by
  refine ⟨by decide, by decide, by decide, by decide, ?_⟩
  rfl

/-!
Embedding of `classify_weather_query` (src/agents/simple_agent.py).

Everything the function does before parsing — loading prompts and config
from disk and the OpenAI chat-completion call — is abstracted as an
`Except String String` outcome (`error` = any exception raised there,
`ok content` = the response message content).  `json.loads` is
abstracted as a `parse` function returning `none` on a decode error.
The whole body sits in one `try/except` that returns `False` on any
exception; `result.get("is_weather_query", False)` on a non-dict raises
and is likewise caught.
-/
def classifyWeatherQuery (parse : String → Option Json) :
    Except String String → Json
  | .error _ => .bool false
  | .ok content =>
      match parse content.trim with
      | none => .bool false
      | some (.obj fields) => (lookupKey "is_weather_query" fields).getD (.bool false)
      | some _ => .bool false

/-- C7: the classifier is fail-closed: it returns `False` when the LLM
call fails and when the output is unparsable, and it returns `True`
when the response body parses to the object with `is_weather_query`
set to `true`; it never raises (it is a total function). -/
theorem classify_weather_query_fail_closed (parse : String → Option Json)
    (e content : String) :
    classifyWeatherQuery parse (.error e) = .bool false
    ∧ (parse content.trim = none →
        classifyWeatherQuery parse (.ok content) = .bool false)
    ∧ (parse content.trim = some (.obj [("is_weather_query", .bool true)]) →
        classifyWeatherQuery parse (.ok content) = .bool true) := by
  refine ⟨rfl, ?_, ?_⟩
  · intro h
    simp [classifyWeatherQuery, h]
  · intro h
    simp [classifyWeatherQuery, h, lookupKey]

/-- Witness for C7 with concrete parse outcomes. -/
theorem classify_weather_query_fail_closed_witness :
    classifyWeatherQuery
        (fun _ => some (.obj [("is_weather_query", .bool true)])) (.ok "x")
      = .bool true
    ∧ classifyWeatherQuery (fun _ => none) (.ok "not json") = .bool false
    ∧ classifyWeatherQuery (fun _ => none) (.error "api down") = .bool false := by
  have h1 := classify_weather_query_fail_closed
    (fun _ => some (.obj [("is_weather_query", .bool true)])) "api down" "x"
  have h2 := classify_weather_query_fail_closed (fun _ => none) "api down" "not json"
  exact ⟨h1.2.2 rfl, h2.2.1 rfl, h2.1⟩

/-!
Embedding of `CurrentWeatherResponse` (src/models/responses.py) and of
the pydantic validation `CurrentWeatherResponse(**response_data)` in
`get_current_weather` (src/main.py).  `latitude`, `longitude`,
`elevation` and `current` are all required (no defaults).  Pydantic
collects every field error into one ValidationError; the embedding
reports the first failing field, which is observationally equivalent
for "parsing fails with a validation error".  Lax coercions of strings
or numbers to booleans and floats are not modeled; the claims settled
here depend only on required-versus-defaulted fields.
-/

structure CurrentWeatherResponse where
  latitude : Rat
  longitude : Rat
  elevation : Rat
  current : CurrentWeatherParameters
deriving Repr, DecidableEq

/-- One `Optional[bool] = Field(False, …)` model field: missing keys take
the default `False`, JSON `null` becomes `None`, booleans pass through,
anything else is a validation error.  Extra keys are ignored by
pydantic's default config. -/
def pOptBool (fields : List (String × Json)) (name : String) :
    Except String (Option Bool) :=
  match lookupKey name fields with
  | none => .ok (some false)
  | some .null => .ok none
  | some (.bool b) => .ok (some b)
  | some _ => .error (name ++ ": Input should be a valid boolean")

def parseCurrentWeatherParameters (j : Json) :
    Except String CurrentWeatherParameters :=
  match j with
  | .obj fields => do
      let temperature_2m ← pOptBool fields "temperature_2m"
      let relative_humidity_2m ← pOptBool fields "relative_humidity_2m"
      let dew_point_2m ← pOptBool fields "dew_point_2m"
      let apparent_temperature ← pOptBool fields "apparent_temperature"
      let pressure_msl ← pOptBool fields "pressure_msl"
      let surface_pressure ← pOptBool fields "surface_pressure"
      let cloud_cover ← pOptBool fields "cloud_cover"
      let cloud_cover_low ← pOptBool fields "cloud_cover_low"
      let cloud_cover_mid ← pOptBool fields "cloud_cover_mid"
      let cloud_cover_high ← pOptBool fields "cloud_cover_high"
      let wind_speed_10m ← pOptBool fields "wind_speed_10m"
      let wind_speed_80m ← pOptBool fields "wind_speed_80m"
      let wind_speed_120m ← pOptBool fields "wind_speed_120m"
      let wind_speed_180m ← pOptBool fields "wind_speed_180m"
      let wind_direction_10m ← pOptBool fields "wind_direction_10m"
      let wind_direction_80m ← pOptBool fields "wind_direction_80m"
      let wind_direction_120m ← pOptBool fields "wind_direction_120m"
      let wind_direction_180m ← pOptBool fields "wind_direction_180m"
      let wind_gusts_10m ← pOptBool fields "wind_gusts_10m"
      let shortwave_radiation ← pOptBool fields "shortwave_radiation"
      let direct_radiation ← pOptBool fields "direct_radiation"
      let direct_normal_irradiance ← pOptBool fields "direct_normal_irradiance"
      let diffuse_radiation ← pOptBool fields "diffuse_radiation"
      let global_tilted_irradiance ← pOptBool fields "global_tilted_irradiance"
      let vapour_pressure_deficit ← pOptBool fields "vapour_pressure_deficit"
      let cape ← pOptBool fields "cape"
      let evapotranspiration ← pOptBool fields "evapotranspiration"
      let et0_fao_evapotranspiration ← pOptBool fields "et0_fao_evapotranspiration"
      let precipitation ← pOptBool fields "precipitation"
      let snowfall ← pOptBool fields "snowfall"
      let precipitation_probability ← pOptBool fields "precipitation_probability"
      let rain ← pOptBool fields "rain"
      let showers ← pOptBool fields "showers"
      let weather_code ← pOptBool fields "weather_code"
      let snow_depth ← pOptBool fields "snow_depth"
      let freezing_level_height ← pOptBool fields "freezing_level_height"
      let visibility ← pOptBool fields "visibility"
      let soil_temperature_0cm ← pOptBool fields "soil_temperature_0cm"
      let soil_temperature_6cm ← pOptBool fields "soil_temperature_6cm"
      let soil_temperature_18cm ← pOptBool fields "soil_temperature_18cm"
      let soil_temperature_54cm ← pOptBool fields "soil_temperature_54cm"
      let soil_moisture_0_to_1cm ← pOptBool fields "soil_moisture_0_to_1cm"
      let soil_moisture_1_to_3cm ← pOptBool fields "soil_moisture_1_to_3cm"
      let soil_moisture_3_to_9cm ← pOptBool fields "soil_moisture_3_to_9cm"
      let soil_moisture_9_to_27cm ← pOptBool fields "soil_moisture_9_to_27cm"
      let soil_moisture_27_to_81cm ← pOptBool fields "soil_moisture_27_to_81cm"
      let is_day ← pOptBool fields "is_day"
      .ok { temperature_2m := temperature_2m,
            relative_humidity_2m := relative_humidity_2m,
            dew_point_2m := dew_point_2m,
            apparent_temperature := apparent_temperature,
            pressure_msl := pressure_msl,
            surface_pressure := surface_pressure,
            cloud_cover := cloud_cover,
            cloud_cover_low := cloud_cover_low,
            cloud_cover_mid := cloud_cover_mid,
            cloud_cover_high := cloud_cover_high,
            wind_speed_10m := wind_speed_10m,
            wind_speed_80m := wind_speed_80m,
            wind_speed_120m := wind_speed_120m,
            wind_speed_180m := wind_speed_180m,
            wind_direction_10m := wind_direction_10m,
            wind_direction_80m := wind_direction_80m,
            wind_direction_120m := wind_direction_120m,
            wind_direction_180m := wind_direction_180m,
            wind_gusts_10m := wind_gusts_10m,
            shortwave_radiation := shortwave_radiation,
            direct_radiation := direct_radiation,
            direct_normal_irradiance := direct_normal_irradiance,
            diffuse_radiation := diffuse_radiation,
            global_tilted_irradiance := global_tilted_irradiance,
            vapour_pressure_deficit := vapour_pressure_deficit,
            cape := cape,
            evapotranspiration := evapotranspiration,
            et0_fao_evapotranspiration := et0_fao_evapotranspiration,
            precipitation := precipitation,
            snowfall := snowfall,
            precipitation_probability := precipitation_probability,
            rain := rain,
            showers := showers,
            weather_code := weather_code,
            snow_depth := snow_depth,
            freezing_level_height := freezing_level_height,
            visibility := visibility,
            soil_temperature_0cm := soil_temperature_0cm,
            soil_temperature_6cm := soil_temperature_6cm,
            soil_temperature_18cm := soil_temperature_18cm,
            soil_temperature_54cm := soil_temperature_54cm,
            soil_moisture_0_to_1cm := soil_moisture_0_to_1cm,
            soil_moisture_1_to_3cm := soil_moisture_1_to_3cm,
            soil_moisture_3_to_9cm := soil_moisture_3_to_9cm,
            soil_moisture_9_to_27cm := soil_moisture_9_to_27cm,
            soil_moisture_27_to_81cm := soil_moisture_27_to_81cm,
            is_day := is_day }
  | _ => .error "current: Input should be a valid dictionary"

/-- A required float field of `CurrentWeatherResponse`. -/
def pReqNum (fields : List (String × Json)) (name : String) : Except String Rat :=
  match lookupKey name fields with
  | none => .error (name ++ ": Field required")
  | some (.num x) => .ok x
  | some _ => .error (name ++ ": Input should be a valid number")

/-- The required `current` field of `CurrentWeatherResponse`. -/
def pReqParams (fields : List (String × Json)) (name : String) :
    Except String CurrentWeatherParameters :=
  match lookupKey name fields with
  | none => .error (name ++ ": Field required")
  | some v => parseCurrentWeatherParameters v

def parseCurrentWeatherResponse : Json → Except String CurrentWeatherResponse
  | .obj fields =>
      match pReqNum fields "latitude" with
      | .error e => .error e
      | .ok lat =>
        match pReqNum fields "longitude" with
        | .error e => .error e
        | .ok lon =>
          match pReqNum fields "elevation" with
          | .error e => .error e
          | .ok elev =>
            match pReqParams fields "current" with
            | .error e => .error e
            | .ok cur => .ok ⟨lat, lon, elev, cur⟩
  | _ => .error "Input should be a valid dictionary"

example :
    parseCurrentWeatherResponse
      (.obj [("latitude", .num 1), ("longitude", .num 2),
             ("elevation", .num 0), ("current", .obj [("temperature_2m", .bool true)])])
    = .ok ⟨1, 2, 0, { temperature_2m := some true }⟩ := rfl

/-!
Embedding of the error handling of `get_current_weather` (src/main.py).

The outcome of the `httpx` GET is passed in explicitly:
`ok body` is a 2xx response whose JSON body parsed (the code then runs
`CurrentWeatherResponse(**response_data)` inside the same `try`);
`statusError` is `httpx.HTTPStatusError` raised by `raise_for_status()`;
`connectError` is any other exception from the request itself
(network/connection failures such as `httpx.ConnectError`), which — like
a pydantic `ValidationError` — is caught by the generic
`except Exception` handler.
-/

inductive HttpResult where
  | ok (body : Json) : HttpResult
  | statusError (msg : String) : HttpResult
  | connectError (msg : String) : HttpResult

/-- What the endpoint returns to its caller: a parsed response, or an
`HTTPException(status_code, detail)`. -/
inductive EndpointResult where
  | success (resp : CurrentWeatherResponse) : EndpointResult
  | httpError (status : Nat) (detail : String) : EndpointResult
deriving Repr, DecidableEq

def getCurrentWeather : HttpResult → EndpointResult
  | .ok body =>
      match parseCurrentWeatherResponse body with
      | .ok r => .success r
      | .error e => .httpError 500 ("An error occurred: " ++ e)
  | .statusError e => .httpError 500 ("HTTP error occurred: " ++ e)
  | .connectError e => .httpError 500 ("An error occurred: " ++ e)

/-- Counterexample to C8: a network/connection failure and a
response-shape failure can produce the very same `HTTPException`
(status 500, identical detail), so the three failure kinds are not each
reported distinguishably — only the upstream-status kind has its own
handler. -/
theorem fetch_error_kinds_collide :
    getCurrentWeather (.connectError "latitude: Field required")
      = getCurrentWeather (.ok (.obj []))
    ∧ getCurrentWeather (.ok (.obj []))
      = .httpError 500 "An error occurred: latitude: Field required" :=
  ⟨rfl, rfl⟩

/-- C8 amended: `get_current_weather` maps every fetch failure to an
`HTTPException` with status 500 and distinguishes exactly two kinds by
the detail prefix: an upstream error status gets
`"HTTP error occurred: "`, while network/connection failures and
response-shape mismatches share the generic `"An error occurred: "`
handler and are not structurally distinguished from each other. -/
theorem fetch_error_reporting (m : String) (body : Json) (e : String) :
    getCurrentWeather (.statusError m)
        = .httpError 500 ("HTTP error occurred: " ++ m)
    ∧ getCurrentWeather (.connectError m)
        = .httpError 500 ("An error occurred: " ++ m)
    ∧ (parseCurrentWeatherResponse body = .error e →
        getCurrentWeather (.ok body) = .httpError 500 ("An error occurred: " ++ e)) := by
  refine ⟨rfl, rfl, ?_⟩
  intro h
  simp [getCurrentWeather, h]

/-- Witness for the amended C8 at concrete inputs. -/
theorem fetch_error_reporting_witness :
    getCurrentWeather (.statusError "502 Bad Gateway")
        = .httpError 500 "HTTP error occurred: 502 Bad Gateway"
    ∧ getCurrentWeather (.connectError "connection refused")
        = .httpError 500 "An error occurred: connection refused"
    ∧ getCurrentWeather (.ok (.obj [("latitude", .num 1)]))
        = .httpError 500 "An error occurred: longitude: Field required" := by
  have h := fetch_error_reporting "502 Bad Gateway" (.obj [("latitude", .num 1)])
    "longitude: Field required"
  have h2 := fetch_error_reporting "connection refused" (.obj []) "x"
  exact ⟨h.1, h2.2.1, h.2.2 rfl⟩

/-- C10: `CurrentWeatherResponse` requires `latitude`, `longitude`,
`elevation` and `current`, so an upstream body that omits `elevation`
or `current` fails validation — even though both fields are optional
(defaulted to absent) on the outbound `CurrentWeatherRequest`. -/
theorem response_requires_elevation_and_current (fields : List (String × Json)) :
    (lookupKey "elevation" fields = none →
      ∃ e, parseCurrentWeatherResponse (.obj fields) = .error e)
    ∧ (lookupKey "current" fields = none →
      ∃ e, parseCurrentWeatherResponse (.obj fields) = .error e)
    ∧ ({ latitude := 0, longitude := 0 } : CurrentWeatherRequest).elevation = none
    ∧ ({ latitude := 0, longitude := 0 } : CurrentWeatherRequest).current = none := by
  refine ⟨?_, ?_, rfl, rfl⟩
  · intro h
    simp only [parseCurrentWeatherResponse]
    cases h1 : pReqNum fields "latitude" with
    | error e => exact ⟨e, rfl⟩
    | ok lat =>
        cases h2 : pReqNum fields "longitude" with
        | error e => exact ⟨e, rfl⟩
        | ok lon =>
            refine ⟨"elevation" ++ ": Field required", ?_⟩
            have h3 : pReqNum fields "elevation" = .error ("elevation" ++ ": Field required") := by
              unfold pReqNum
              rw [h]
            rw [h3]
  · intro h
    simp only [parseCurrentWeatherResponse]
    cases h1 : pReqNum fields "latitude" with
    | error e => exact ⟨e, rfl⟩
    | ok lat =>
        cases h2 : pReqNum fields "longitude" with
        | error e => exact ⟨e, rfl⟩
        | ok lon =>
            cases h3 : pReqNum fields "elevation" with
            | error e => exact ⟨e, rfl⟩
            | ok elev =>
                refine ⟨"current" ++ ": Field required", ?_⟩
                have h4 : pReqParams fields "current"
                    = .error ("current" ++ ": Field required") := by
                  unfold pReqParams
                  rw [h]
                rw [h4]

/-- Witness for C10: a body carrying only coordinates (and a body also
missing `current`) fails validation. -/
theorem response_requires_elevation_and_current_witness :
    (∃ e, parseCurrentWeatherResponse
      (.obj [("latitude", .num 1), ("longitude", .num 2),
             ("current", .obj [])]) = .error e)
    ∧ (∃ e, parseCurrentWeatherResponse
      (.obj [("latitude", .num 1), ("longitude", .num 2),
             ("elevation", .num 0)]) = .error e) := by
  have h1 := response_requires_elevation_and_current
    [("latitude", .num 1), ("longitude", .num 2), ("current", .obj [])]
  have h2 := response_requires_elevation_and_current
    [("latitude", .num 1), ("longitude", .num 2), ("elevation", .num 0)]
  exact ⟨h1.1 rfl, h2.2.1 rfl⟩
